import Mathlib

/-!
Shallow embedding of the careerscope-AI resume analyzer.

Text is modelled as `List Char`; Python's substring test `kw in s` becomes
the contiguous-infix relation on character lists, `str.upper()` becomes a
character-wise uppercase map, and each scoring branch of `src/App/App.py`
is translated into a pure Lean function.
-/

set_option maxRecDepth 8192

namespace CareerScope

/-- Model of Python `str.upper()` (ASCII case mapping). -/
def upper (t : List Char) : List Char := t.map Char.toUpper

/-- Model of Python `str.lower()` (ASCII case mapping). -/
def lower (t : List Char) : List Char := t.map Char.toLower

/-- Model of the Python substring test `kw in t`: `kw` occurs contiguously in `t`. -/
abbrev occurs (kw t : List Char) : Prop := kw <:+: t

/-- A substring occurrence survives appending more text on the right. -/
theorem occurs_append_right (kw t e : List Char) (h : occurs kw t) :
    occurs kw (t ++ e) := by
  exact h.trans ⟨[], e, rfl⟩

/-- Uppercasing distributes over append, so occurrences in the uppercased
text survive appending more raw text. -/
theorem occurs_upper_append (kw t e : List Char) (h : occurs kw (upper t)) :
    occurs kw (upper (t ++ e)) := by
  unfold upper at h ⊢
  rw [List.map_append]
  exact occurs_append_right _ _ _ h

/-- Resume structure score from src/App/App.py lines 497-516: six section
checks against the uppercased text, each adding a fixed number of points. -/
def resume_score (resume_text : List Char) : Nat :=
  (if occurs "OBJECTIVE".data (upper resume_text) ∨ occurs "SUMMARY".data (upper resume_text) then 6 else 0) +
  (if occurs "EDUCATION".data (upper resume_text) ∨ occurs "SCHOOL".data (upper resume_text) ∨ occurs "COLLEGE".data (upper resume_text) then 12 else 0) +
  (if occurs "EXPERIENCE".data (upper resume_text) then 16 else 0) +
  (if occurs "INTERNSHIP".data (upper resume_text) then 6 else 0) +
  (if occurs "SKILL".data (upper resume_text) then 7 else 0) +
  (if occurs "PROJECT".data (upper resume_text) then 19 else 0)

/-- Candidate experience level from src/App/App.py lines 366-383: page count
below one yields "NA"; otherwise the internship keyword is checked first,
then the experience keyword, and "Fresher" is the default. -/
def cand_level (resume_text : List Char) (no_of_pages : Int) : String :=
  if no_of_pages < 1 then "NA"
  else if occurs "INTERNSHIP".data (upper resume_text) then "Intermediate"
  else if occurs "EXPERIENCE".data (upper resume_text) then "Experienced"
  else "Fresher"

/-- An `if _ then k else 0` term is bounded by `k`. -/
theorem ite_le_const (p : Prop) [Decidable p] (k : Nat) : (if p then k else 0) ≤ k := by
  split
  · exact Nat.le_refl k
  · exact Nat.zero_le k

/-- Strengthening the condition of an `if _ then k else 0` term can only
increase its value. -/
theorem ite_mono_of_imp (p q : Prop) [Decidable p] [Decidable q] (k : Nat)
    (h : p → q) : (if p then k else 0) ≤ (if q then k else 0) := by
  by_cases hp : p
  · rw [if_pos hp, if_pos (h hp)]
  · rw [if_neg hp]
    exact Nat.zero_le _

/-- The structure score never exceeds 66 (the sum of all section points). -/
theorem resume_score_le_66 (t : List Char) : resume_score t ≤ 66 := by
  unfold resume_score
  have h1 := ite_le_const (occurs "OBJECTIVE".data (upper t) ∨ occurs "SUMMARY".data (upper t)) 6
  have h2 := ite_le_const (occurs "EDUCATION".data (upper t) ∨ occurs "SCHOOL".data (upper t) ∨ occurs "COLLEGE".data (upper t)) 12
  have h3 := ite_le_const (occurs "EXPERIENCE".data (upper t)) 16
  have h4 := ite_le_const (occurs "INTERNSHIP".data (upper t)) 6
  have h5 := ite_le_const (occurs "SKILL".data (upper t)) 7
  have h6 := ite_le_const (occurs "PROJECT".data (upper t)) 19
  omega

/-- Appending any extra text never decreases the structure score. -/
theorem resume_score_le_append (t e : List Char) :
    resume_score t ≤ resume_score (t ++ e) := by
  unfold resume_score
  refine Nat.add_le_add (Nat.add_le_add (Nat.add_le_add (Nat.add_le_add
    (Nat.add_le_add ?_ ?_) ?_) ?_) ?_) ?_
  · exact ite_mono_of_imp _ _ _ (fun h => h.imp
      (occurs_upper_append _ _ _) (occurs_upper_append _ _ _))
  · exact ite_mono_of_imp _ _ _ (fun h => h.imp (occurs_upper_append _ _ _)
      (fun h' => h'.imp (occurs_upper_append _ _ _) (occurs_upper_append _ _ _)))
  · exact ite_mono_of_imp _ _ _ (occurs_upper_append _ _ _)
  · exact ite_mono_of_imp _ _ _ (occurs_upper_append _ _ _)
  · exact ite_mono_of_imp _ _ _ (occurs_upper_append _ _ _)
  · exact ite_mono_of_imp _ _ _ (occurs_upper_append _ _ _)

/-- Domain keyword table from src/App/App.py line 398. -/
def ds_keyword : List String :=
  ["tensorflow", "keras", "pytorch", "machine learning", "deep learning", "flask", "streamlit"]

/-- Domain keyword table from src/App/App.py line 399. -/
def web_keyword : List String :=
  ["react", "django", "node js", "react js", "php", "laravel", "magento", "wordpress",
   "javascript", "angular js", "c#", "asp.net", "flask"]

/-- Domain keyword table from src/App/App.py line 400. -/
def android_keyword : List String :=
  ["android", "android development", "flutter", "kotlin", "xml", "kivy"]

/-- Domain keyword table from src/App/App.py line 401. -/
def ios_keyword : List String :=
  ["ios", "ios development", "swift", "cocoa", "cocoa touch", "xcode"]

/-- Domain keyword table from src/App/App.py line 402. -/
def uiux_keyword : List String :=
  ["ux", "adobe xd", "figma", "zeplin", "balsamiq", "ui", "prototyping", "wireframes",
   "adobe photoshop", "photoshop", "illustrator"]

/-- Non-technical keyword table from src/App/App.py line 403. -/
def n_any : List String :=
  ["english", "communication", "writing", "microsoft office", "leadership",
   "customer management", "social media"]

/-- Model of Python `str.lower()` on a whole string value. -/
def lowerStr (s : String) : String := String.mk (s.data.map Char.toLower)

/-- One iteration of the skills loop in src/App/App.py lines 409-493: the
lower-cased skill is tested for exact membership in each domain keyword list
in declaration order, and the first hit fixes the recommended field. -/
def skillDomain (il : String) : Option String :=
  if il ∈ ds_keyword then some "Data Science"
  else if il ∈ web_keyword then some "Web Development"
  else if il ∈ android_keyword then some "Android Development"
  else if il ∈ ios_keyword then some "IOS Development"
  else if il ∈ uiux_keyword then some "UI-UX Development"
  else if il ∈ n_any then some "NA"
  else none

/-- The skills loop of src/App/App.py lines 405-493: reco_field starts as the
empty string; the first skill whose lower-cased form hits a keyword list sets
it and breaks the loop; skills with no hit are skipped. -/
def reco_field : List String → String
  | [] => ""
  | s :: rest =>
    match skillDomain (lowerStr s) with
    | some d => d
    | none => reco_field rest

/-- Outcome of the admin branch of src/App/App.py lines 611-636: either the
log tables are rendered or the error message is shown. -/
inductive AdminView where
  | logs
  | denied
deriving DecidableEq

/-- Admin login check from src/App/App.py line 612. -/
def admin_view (user password : String) : AdminView :=
  if user = "admin" ∧ password = "admin@resume-analyzer" then AdminView.logs
  else AdminView.denied

/-- Outcome of the external Gemini call made by call_gemini in
src/App/ai_client.py: either a response text or a raised exception whose
string representation is recorded. -/
inductive UpstreamResult where
  | ok (text : String)
  | err (msg : String)

/-- Fixed reply of ask_ai (src/App/ai_client.py line 102) for blank prompts. -/
def no_input_message : String := "No input provided for AI analysis."

/-- Fixed overload reply of ask_ai, src/App/ai_client.py lines 112-117. -/
def busy_message : String :=
  "⚠️ **AI service is temporarily busy**\n\nThe Gemini model is under heavy load right now.\nPlease wait **30–60 seconds** and try again.\n\nYour analysis and data are safe."

/-- Leading part of the generic fallback reply, src/App/ai_client.py lines 120-123. -/
def generic_intro : String := "⚠️ **AI encountered an unexpected issue**\n\nDetails: "

/-- Generic fallback reply of ask_ai: the intro followed by the error details. -/
def generic_message (msg : String) : String := generic_intro ++ msg

/-- Model of Python `str.strip()`: drop whitespace from both ends. -/
def pstrip (l : List Char) : List Char :=
  ((l.dropWhile Char.isWhitespace).reverse.dropWhile Char.isWhitespace).reverse

/-- ask_ai from src/App/ai_client.py lines 95-123: blank prompts get a fixed
message; otherwise the upstream result is returned on success, while a
failure whose message mentions 503 or UNAVAILABLE gets the fixed busy reply
and any other failure gets the generic reply carrying the error details.
Every exception is caught, so the function is total. -/
def ask_ai : List Char → UpstreamResult → String
  | prompt, UpstreamResult.ok t =>
    if pstrip prompt = [] then no_input_message else t
  | prompt, UpstreamResult.err msg =>
    if pstrip prompt = [] then no_input_message
    else if occurs "503".data msg.data ∨ occurs "UNAVAILABLE".data msg.data then busy_message
    else generic_message msg

/-- Fallback reply of the placeholder ask_ai in src/ai_client.py line 16. -/
def fallback_message : String :=
  "AI suggestions are not enabled yet. Add your AI_API_KEY in Streamlit secrets to activate this feature."

/-- Enabled-path reply of the placeholder ask_ai in src/ai_client.py line 19. -/
def pending_message : String :=
  "Real AI suggestions will appear here once the API client is connected."

/-- ask_ai from the top-level src/ai_client.py lines 6-19: the AI_API_KEY
environment variable is modelled as an optional string; Python falsiness of
the key means it is absent or empty. The prompt argument is accepted but
never inspected, and no external service exists in this code path. -/
def ask_ai_placeholder (api_key : Option String) (_prompt : String) : String :=
  if api_key = none ∨ api_key = some "" then fallback_message else pending_message

/-- Modelled from the spec: the section table of §2 and §4.1 with the
missing-suggestions output of score_structure, which is absent from
src/App/App.py (the source computes only the score). Eight fixed sections,
each recognized by its own name as keyword and worth 12 points per §8
scenario 2, with the score clamped by min(score, 100) per §4.1. -/
structure SpecSection where
  name : String
  keyword : List Char
  points : Nat

/-- Modelled from the spec: the eight sections of §2. -/
def specSections : List SpecSection :=
  [⟨"summary", "summary".data, 12⟩,
   ⟨"education", "education".data, 12⟩,
   ⟨"experience", "experience".data, 12⟩,
   ⟨"skills", "skills".data, 12⟩,
   ⟨"projects", "projects".data, 12⟩,
   ⟨"certifications", "certifications".data, 12⟩,
   ⟨"achievements", "achievements".data, 12⟩,
   ⟨"internships", "internships".data, 12⟩]

/-- Modelled from the spec: score_structure of §4.1, returning the clamped
sum of points of present sections together with the names of absent sections
as suggestions; absent from src/App/App.py. -/
def score_structure (text : List Char) : Nat × List String :=
  (min (specSections.foldl
      (fun a sec => if occurs sec.keyword (lower text) then a + sec.points else a) 0) 100,
   (specSections.filter (fun sec => ! decide (occurs sec.keyword (lower text)))).map
     SpecSection.name)

/-- Round-half-up division, modelling the spec's round(a / b) on naturals. -/
def roundDiv (a b : Nat) : Nat := (2 * a + b) / (2 * b)

/-- Modelled from the spec: the domain confidence of §4.3,
round(100 * winning_score / max(1, total)) clamped to [0,100]; the confidence
computation is absent from src/App/App.py. -/
def domain_confidence (winning total : Nat) : Nat :=
  min (roundDiv (100 * winning) (max 1 total)) 100

/-- The recognized section keywords of the structure scorer in
src/App/App.py lines 499-514. -/
def section_keywords : List (List Char) :=
  ["OBJECTIVE".data, "SUMMARY".data, "EDUCATION".data, "SCHOOL".data, "COLLEGE".data,
   "EXPERIENCE".data, "INTERNSHIP".data, "SKILL".data, "PROJECT".data]

/-- The generic fallback reply is never equal to the raw error message; the
intro makes it strictly longer. -/
theorem generic_message_ne (msg : String) : generic_message msg ≠ msg := by
  intro h
  have hlen := congrArg String.length h
  rw [generic_message, String.length_append] at hlen
  have hpos : 0 < generic_intro.length := by decide
  omega

/-- Claim C1 is false on the code: the text "senior internship" contains the
seniority keyword "senior", yet cand_level returns "Intermediate" and not
"Experienced" — the code checks the internship keyword first and never
consults seniority keywords at all. -/
theorem C1_counterexample :
    occurs "senior".data "senior internship".data ∧
    cand_level "senior internship".data 1 = "Intermediate" ∧
    cand_level "senior internship".data 1 ≠ "Experienced" := by decide

/-- Claim C1 (amended): cand_level evaluates its rules in the fixed order:
page count below one gives "NA"; otherwise the internship keyword is checked
first and wins (giving "Intermediate" even when the experience keyword also
appears), then the experience keyword gives "Experienced", and "Fresher" is
the final default; seniority keywords such as "senior", "lead", "architect"
or "manager" are never consulted. -/
theorem C1_priority (t : List Char) (pages : Int) :
    (pages < 1 → cand_level t pages = "NA") ∧
    (1 ≤ pages → occurs "INTERNSHIP".data (upper t) →
      cand_level t pages = "Intermediate") ∧
    (1 ≤ pages → ¬ occurs "INTERNSHIP".data (upper t) →
      occurs "EXPERIENCE".data (upper t) → cand_level t pages = "Experienced") ∧
    (1 ≤ pages → ¬ occurs "INTERNSHIP".data (upper t) →
      ¬ occurs "EXPERIENCE".data (upper t) → cand_level t pages = "Fresher") := by
  unfold cand_level
  refine ⟨fun h => by rw [if_pos h], fun h hint => ?_, fun h hni hexp => ?_,
    fun h hni hne => ?_⟩
  · rw [if_neg (by omega), if_pos hint]
  · rw [if_neg (by omega), if_neg hni, if_pos hexp]
  · rw [if_neg (by omega), if_neg hni, if_neg hne]

/-- Witness for C1_priority at concrete page counts and texts. -/
theorem C1_priority_witness :
    cand_level "x".data 0 = "NA" ∧
    cand_level "internship experience".data 1 = "Intermediate" ∧
    cand_level "experience".data 1 = "Experienced" ∧
    cand_level "plain text".data 1 = "Fresher" :=
  ⟨(C1_priority "x".data 0).1 (by decide),
   (C1_priority "internship experience".data 1).2.1 (by decide) (by decide),
   (C1_priority "experience".data 1).2.2.1 (by decide) (by decide) (by decide),
   (C1_priority "plain text".data 1).2.2.2 (by decide) (by decide) (by decide)⟩

/-- Claim C2 is false on the code: a text containing exactly the four section
keywords education, experience, skills and projects scores 12+16+7+19 = 54,
not 48 — the sections carry unequal weights. -/
theorem C2_counterexample :
    occurs "EDUCATION".data (upper "education experience skills projects".data) ∧
    occurs "EXPERIENCE".data (upper "education experience skills projects".data) ∧
    occurs "SKILL".data (upper "education experience skills projects".data) ∧
    occurs "PROJECT".data (upper "education experience skills projects".data) ∧
    resume_score "education experience skills projects".data = 54 ∧
    resume_score "education experience skills projects".data ≠ 48 := by decide

/-- Claim C2 (amended): a text whose uppercased form contains EDUCATION,
EXPERIENCE, SKILL and PROJECT but none of OBJECTIVE, SUMMARY, INTERNSHIP
scores 12 + 16 + 7 + 19 = 54: education contributes 12, experience 16,
skills 7 and projects 19. -/
theorem C2_four_sections (t : List Char)
    (hedu : occurs "EDUCATION".data (upper t))
    (hexp : occurs "EXPERIENCE".data (upper t))
    (hskl : occurs "SKILL".data (upper t))
    (hprj : occurs "PROJECT".data (upper t))
    (hobj : ¬ occurs "OBJECTIVE".data (upper t))
    (hsum : ¬ occurs "SUMMARY".data (upper t))
    (hint : ¬ occurs "INTERNSHIP".data (upper t)) :
    resume_score t = 54 := by
  unfold resume_score
  rw [if_neg (fun h => h.elim hobj hsum), if_pos (Or.inl hedu), if_pos hexp,
    if_neg hint, if_pos hskl, if_pos hprj]

/-- Witness for C2_four_sections at a concrete text. -/
theorem C2_four_sections_witness :
    resume_score "education experience skills projects".data = 54 :=
  C2_four_sections "education experience skills projects".data
    (by decide) (by decide) (by decide) (by decide) (by decide) (by decide) (by decide)

/-- Claim C3 is false on the code: when the detected skills match no domain
keyword, the recommended field stays the empty string instead of becoming the
first table entry "Data Science", and no confidence value is produced at all. -/
theorem C3_counterexample :
    reco_field ["qqq"] = "" ∧ reco_field ["qqq"] ≠ "Data Science" := by decide

/-- Claim C3 (amended): when no detected skill hits any domain keyword list,
the skills loop deterministically leaves the recommended field at its initial
value, the empty string — an empty default rather than the first-declared
table entry, with no confidence computed. -/
theorem C3_no_match (skills : List String)
    (h : ∀ s ∈ skills, skillDomain (lowerStr s) = none) :
    reco_field skills = "" := by
  induction skills with
  | nil => rfl
  | cons s rest ih =>
    unfold reco_field
    rw [h s (List.mem_cons_self s rest)]
    exact ih (fun x hx => h x (List.mem_cons_of_mem s hx))

/-- Witness for C3_no_match at a concrete skill list. -/
theorem C3_no_match_witness : reco_field ["qqq", "zzz"] = "" :=
  C3_no_match ["qqq", "zzz"] (by decide)

/-- Claim C4 is false on the code: for empty input text cand_level returns
"Fresher" when the page count is at least one and "NA" when it is below one,
never "Unknown". -/
theorem C4_counterexample :
    cand_level [] 1 = "Fresher" ∧ cand_level [] 0 = "NA" ∧
    cand_level [] 1 ≠ "Unknown" := by decide

/-- Claim C4 (amended): for empty input text cand_level returns "NA" when the
page count is below one and "Fresher" otherwise; the string "Unknown" is
never produced. -/
theorem C4_empty_text (pages : Int) :
    (pages < 1 → cand_level [] pages = "NA") ∧
    (1 ≤ pages → cand_level [] pages = "Fresher") ∧
    cand_level [] pages ≠ "Unknown" := by
  have hni : ¬ occurs "INTERNSHIP".data (upper []) := by decide
  have hne : ¬ occurs "EXPERIENCE".data (upper []) := by decide
  unfold cand_level
  refine ⟨fun h => by rw [if_pos h], fun h => ?_, ?_⟩
  · rw [if_neg (by omega), if_neg hni, if_neg hne]
  · by_cases h : pages < 1
    · rw [if_pos h]
      decide
    · rw [if_neg h, if_neg hni, if_neg hne]
      decide

/-- Witness for C4_empty_text at concrete page counts. -/
theorem C4_empty_text_witness :
    cand_level [] 0 = "NA" ∧ cand_level [] 3 = "Fresher" :=
  ⟨(C4_empty_text 0).1 (by decide), (C4_empty_text 3).2.1 (by decide)⟩

/-- Claim C5: the structure score of any text is at most 100 (its true
maximum is 66), and the spec-modelled domain confidence is clamped to at
most 100; both are naturals, so 0 is a lower bound by construction. -/
theorem C5_bounds (t : List Char) (winning total : Nat) :
    resume_score t ≤ 100 ∧ domain_confidence winning total ≤ 100 := by
  constructor
  · exact Nat.le_trans (resume_score_le_66 t) (by omega)
  · exact Nat.min_le_right _ _

/-- Claim C6: the structure scorer is monotonic — extending a text with any
recognized section keyword never decreases the score. -/
theorem C6_monotone (t kw : List Char) (_hkw : kw ∈ section_keywords) :
    resume_score t ≤ resume_score (t ++ kw) :=
  resume_score_le_append t kw

/-- Witness for C6_monotone with the SKILL keyword. -/
theorem C6_monotone_witness :
    resume_score "education".data ≤ resume_score ("education".data ++ "SKILL".data) :=
  C6_monotone "education".data "SKILL".data (by decide)

/-- Claim C7: on empty input the source scorer returns 0, and the
spec-modelled score_structure returns score 0 together with all eight section
suggestions; both are total functions, so empty input cannot raise. -/
theorem C7_empty_input :
    resume_score [] = 0 ∧
    score_structure [] =
      (0, ["summary", "education", "experience", "skills", "projects",
           "certifications", "achievements", "internships"]) := by decide

/-- Claim C8 is false on the code: two different upstream failure messages
produce two different replies, because the generic fallback embeds the error
details — so the failure reply is not one fixed apology string. -/
theorem C8_counterexample :
    ask_ai "hello".data (UpstreamResult.err "quota exceeded") ≠
      ask_ai "hello".data (UpstreamResult.err "upstream timeout") := by decide

/-- Claim C8 (amended): ask_ai is a total function returning a string for
every prompt and upstream outcome; for a nonblank prompt an upstream failure
is never propagated verbatim: a message mentioning 503 or UNAVAILABLE yields
the fixed busy apology, and any other failure yields the generic apology
carrying the error details (human-readable, but not one fixed string). -/
theorem C8_failure_handling (prompt : List Char) (msg : String)
    (h : pstrip prompt ≠ []) :
    ask_ai prompt (UpstreamResult.err msg) ≠ msg ∧
    ((occurs "503".data msg.data ∨ occurs "UNAVAILABLE".data msg.data) →
      ask_ai prompt (UpstreamResult.err msg) = busy_message) ∧
    (¬ (occurs "503".data msg.data ∨ occurs "UNAVAILABLE".data msg.data) →
      ask_ai prompt (UpstreamResult.err msg) = generic_message msg) := by
  have hrw : ask_ai prompt (UpstreamResult.err msg) =
      (if pstrip prompt = [] then no_input_message
       else if occurs "503".data msg.data ∨ occurs "UNAVAILABLE".data msg.data
         then busy_message
       else generic_message msg) := rfl
  rw [hrw, if_neg h]
  by_cases hb : occurs "503".data msg.data ∨ occurs "UNAVAILABLE".data msg.data
  · rw [if_pos hb]
    refine ⟨fun heq => ?_, fun _ => rfl, fun hc => absurd hb hc⟩
    rw [← heq] at hb
    exact (by decide : ¬ (occurs "503".data busy_message.data ∨
      occurs "UNAVAILABLE".data busy_message.data)) hb
  · rw [if_neg hb]
    exact ⟨generic_message_ne msg, fun hc => absurd hc hb, fun _ => rfl⟩

/-- Witness for C8_failure_handling at concrete failure messages. -/
theorem C8_failure_handling_witness :
    ask_ai "hello".data (UpstreamResult.err "503 UNAVAILABLE") = busy_message ∧
    ask_ai "hello".data (UpstreamResult.err "boom") = generic_message "boom" :=
  ⟨(C8_failure_handling "hello".data "503 UNAVAILABLE" (by decide)).2.1 (by decide),
   (C8_failure_handling "hello".data "boom" (by decide)).2.2 (by decide)⟩

/-- Claim C9: admin login succeeds exactly when the username is "admin" and
the password is "admin@resume-analyzer"; every other pair reaches the error
branch, where no log data is rendered. -/
theorem C9_admin (user password : String) :
    (admin_view user password = AdminView.logs ↔
      user = "admin" ∧ password = "admin@resume-analyzer") ∧
    (admin_view user password = AdminView.denied ↔
      ¬ (user = "admin" ∧ password = "admin@resume-analyzer")) := by
  unfold admin_view
  by_cases h : user = "admin" ∧ password = "admin@resume-analyzer"
  · rw [if_pos h]
    simp [h]
  · rw [if_neg h]
    simp [h]

/-- Witness for C9_admin at the demo credentials and a wrong password. -/
theorem C9_admin_witness :
    admin_view "admin" "admin@resume-analyzer" = AdminView.logs ∧
    admin_view "admin" "wrong" = AdminView.denied :=
  ⟨((C9_admin "admin" "admin@resume-analyzer").1).mpr ⟨rfl, rfl⟩,
   ((C9_admin "admin" "wrong").2).mpr
     (fun hc => (by decide : ("wrong" : String) ≠ "admin@resume-analyzer") hc.2)⟩

/-- Claim C10: the placeholder ask_ai is prompt-independent — identical
output for any two prompts under the same environment; the output is one of
two fixed messages, chosen solely by whether the AI_API_KEY value is absent
or empty; the embedding is a pure function, matching the source, which
contacts no external service. -/
theorem C10_prompt_independent (key : Option String) (p₁ p₂ : String) :
    ask_ai_placeholder key p₁ = ask_ai_placeholder key p₂ ∧
    (ask_ai_placeholder key p₁ = fallback_message ∨
      ask_ai_placeholder key p₁ = pending_message) ∧
    ((key = none ∨ key = some "") → ask_ai_placeholder key p₁ = fallback_message) ∧
    (¬ (key = none ∨ key = some "") → ask_ai_placeholder key p₁ = pending_message) := by
  unfold ask_ai_placeholder
  by_cases h : key = none ∨ key = some ""
  · rw [if_pos h]
    exact ⟨rfl, Or.inl rfl, fun _ => rfl, fun hc => absurd h hc⟩
  · rw [if_neg h]
    exact ⟨rfl, Or.inr rfl, fun hc => absurd hc h, fun _ => rfl⟩

/-- Witness for C10_prompt_independent at a missing key and a set key. -/
theorem C10_prompt_independent_witness :
    ask_ai_placeholder none "a" = fallback_message ∧
    ask_ai_placeholder (some "k") "a" = pending_message :=
  ⟨(C10_prompt_independent none "a" "b").2.2.1 (Or.inl rfl),
   (C10_prompt_independent (some "k") "a" "b").2.2.2 (by decide)⟩

end CareerScope
